import Mathlib

/-!
Verification development for the ambulance multi-flow dispatch system
(src/app.py). Pure fragments of the program are embedded as Lean
functions; randomized sampling is modelled by quantifying over any value
in the documented range of random.uniform, and solver output is modelled
by quantifying over variable valuations that satisfy the MILP
constraints built by resolver_optimizacion. Real arithmetic of the
source is embedded over the rationals.
-/

namespace Ambulancias

/-- Cost coefficient for staff (app.py line 28). -/
def COEF_PERSONAL : Nat := 10

/-- Cost coefficient for equipment (app.py line 29). -/
def COEF_EQUIPAMIENTO : Nat := 5

/-- Cost coefficient for supplies (app.py line 30). -/
def COEF_INSUMOS : Nat := 3

/-- Time weight of the objective (app.py line 33). -/
def BETA : ℚ := 1 / 2

/-- Operational cost weight of the objective (app.py line 34). -/
def GAMMA : ℚ := 1

/-- Big-M constant (app.py line 37). -/
def M : ℚ := 10000

/-- An ambulance record: id plus the three resource quantities
(app.py class Ambulancia, lines 51-58). -/
structure Ambulancia where
  id : String
  personal : Nat
  equipamiento : Nat
  insumos : Nat
deriving DecidableEq, Repr

/-- Operational cost, app.py lines 62-65:
personal * COEF_PERSONAL + equipamiento * COEF_EQUIPAMIENTO + insumos * COEF_INSUMOS. -/
def costo_operativo (a : Ambulancia) : Nat :=
  a.personal * COEF_PERSONAL + a.equipamiento * COEF_EQUIPAMIENTO +
    a.insumos * COEF_INSUMOS

/-- Ambulance class from operational cost, app.py lines 67-75. -/
def tipo (a : Ambulancia) : String :=
  if costo_operativo a ≥ 200 then "Crítica"
  else if costo_operativo a ≥ 100 then "Media"
  else if costo_operativo a ≥ 50 then "Leve"
  else "Desconocido"

/-- Severity and class ranking, app.py lines 93-97: both dictionaries in
es_compatible map Crítica to 3, Media to 2, Leve to 1, and the dict get
call returns 0 for any other key. -/
def nivel (t : String) : Nat :=
  if t = "Crítica" then 3
  else if t = "Media" then 2
  else if t = "Leve" then 1
  else 0

/-- Compatibility predicate, app.py lines 91-99: the ambulance class
rank must be at least the emergency type rank. -/
def es_compatible (a : Ambulancia) (tipo_emergencia : String) : Bool :=
  decide (nivel (tipo a) ≥ nivel tipo_emergencia)

/-- Nominal traversal time in minutes for one edge, app.py lines
133-134: tiempo_horas = distancia_km / capacidad, tiempo_min =
tiempo_horas * 60. The capacity is sampled by random.uniform(C_MIN,
C_MAX), whose contract guarantees C_MIN <= value <= C_MAX; theorems
quantify over any capacity in that closed range. -/
def tiempo_min (distancia_km capacidad : ℚ) : ℚ :=
  distancia_km / capacidad * 60

/-- Width of one third of the required-speed range, app.py lines
137-138: rango = R_MAX - R_MIN, tercio = rango / 3. -/
def tercio (R_MIN R_MAX : ℚ) : ℚ :=
  (R_MAX - R_MIN) / 3

/-- One sampled value per severity class for the required-speed mapping
R_k built at app.py lines 140-144. -/
structure MuestraVelocidades where
  leve : ℚ
  media : ℚ
  critica : ℚ

/-- The ranges the three random.uniform calls of app.py lines 140-144
draw from: Leve from [R_MIN, R_MIN + tercio], Media from
[R_MIN + tercio, R_MIN + 2 * tercio], Crítica from
[R_MIN + 2 * tercio, R_MAX]. random.uniform(a, b) returns a value in
the closed interval, both endpoints included. -/
def muestraValida (R_MIN R_MAX : ℚ) (s : MuestraVelocidades) : Prop :=
  (R_MIN ≤ s.leve ∧ s.leve ≤ R_MIN + tercio R_MIN R_MAX) ∧
  (R_MIN + tercio R_MIN R_MAX ≤ s.media ∧
    s.media ≤ R_MIN + 2 * tercio R_MIN R_MAX) ∧
  (R_MIN + 2 * tercio R_MIN R_MAX ≤ s.critica ∧ s.critica ≤ R_MAX)

/-- The R_k dictionary of app.py lines 140-144 as a function on the
three severity keys. -/
def R_k_de (s : MuestraVelocidades) : String → ℚ :=
  fun t =>
    if t = "Leve" then s.leve
    else if t = "Media" then s.media
    else if t = "Crítica" then s.critica
    else 0

/-- One pass of the inner for loop of the path reconstruction, app.py
lines 383-390: scan arcos_restantes in order for the first arc whose
source u equals nodo_actual; when found, append its target v to the
route, move to v and remove that arc; when no arc matches, the for loop
finishes without changing any state. -/
def pasoRuta (ruta : List Nat) (nodo_actual : Nat)
    (restantes : List (Nat × Nat × Nat)) :
    List Nat × Nat × List (Nat × Nat × Nat) :=
  match restantes.find? (fun a => a.1 == nodo_actual) with
  | some a => (ruta ++ [a.2.1], a.2.1, restantes.erase a)
  | none => (ruta, nodo_actual, restantes)

/-- The while loop of app.py lines 383-390, run for a given number of
iterations: while arcos_restantes is nonempty, execute pasoRuta. The
source loop has no iteration bound, so divergence is modelled by fuel:
some ruta means the while loop exited (arcos_restantes became empty)
within the given number of iterations, none means it was still running
after all of them. -/
def reconstruirRuta (fuel : Nat) (ruta : List Nat) (nodo_actual : Nat)
    (restantes : List (Nat × Nat × Nat)) : Option (List Nat) :=
  match fuel with
  | 0 => if restantes.isEmpty then some ruta else none
  | f + 1 =>
    if restantes.isEmpty then some ruta
    else
      let p := pasoRuta ruta nodo_actual restantes
      reconstruirRuta f p.1 p.2.1 p.2.2

/-- The emergency type cycle FLUJOS of app.py line 181. -/
def FLUJOS : List String := ["Crítica", "Media", "Leve"]

/-- Candidate destination nodes, app.py lines 172-173: reachable nodes
distinct from the origin and of positive degree. The reachable node
list and the degree function of the strongly connected component are
taken as parameters. -/
def candidatosDe (alcanzables : List Nat) (ORIGEN : Nat)
    (grado : Nat → Nat) : List Nat :=
  alcanzables.filter (fun n => decide (n ≠ ORIGEN ∧ 0 < grado n))

/-- Effective incident count, app.py lines 175-176: the requested count
is silently lowered to the number of candidates when there are fewer
candidates than requested. -/
def num_incidentes_efectivo (num : Nat) (candidatos : List Nat) : Nat :=
  if candidatos.length < num then candidatos.length else num

/-- The emergency type list of app.py line 182 before shuffling:
(FLUJOS * (num // 3 + 1))[:num]. -/
def tipos_emergencia_base (num : Nat) : List String :=
  ((List.replicate (num / 3 + 1) FLUJOS).flatten).take num

/-- Contract of random.sample(candidatos, k), app.py line 178: a list
of k distinct elements drawn from candidatos. -/
def esSample (candidatos : List Nat) (k : Nat) (sample : List Nat) : Prop :=
  sample.Nodup ∧ sample.length = k ∧ ∀ n ∈ sample, n ∈ candidatos

/-- The DESTINOS dictionary of app.py line 185, built by zipping the
sampled nodes with the shuffled emergency types; with distinct keys the
dict is exactly this association list. -/
def generar_destinos (destinos_nodos : List Nat) (tipos : List String) :
    List (Nat × String) :=
  destinos_nodos.zip tipos

/-- A directed edge of the street multigraph with the attributes used
by resolver_optimizacion: endpoints u and v, the parallel-edge key, the
Distancia attribute (km) and the sampled Capacidad_C attribute. -/
structure Arco where
  u : Nat
  v : Nat
  key : Nat
  distancia : ℚ
  capacidad : ℚ
deriving DecidableEq, Repr

/-- An input snapshot of resolver_optimizacion (app.py line 189): graph
nodes and edges, fleet, origin, the DESTINOS dict as an association
list with distinct keys, and the required-speed mapping R_k. -/
structure Instancia where
  nodos : List Nat
  arcos : List Arco
  ambulancias : List Ambulancia
  ORIGEN : Nat
  DESTINOS : List (Nat × String)
  R_k : String → ℚ

/-- Priority dictionary of app.py line 196. -/
def prioridades (t : String) : Nat :=
  if t = "Crítica" then 3
  else if t = "Media" then 2
  else if t = "Leve" then 1
  else 0

/-- Lookup DESTINOS[n] as done throughout resolver_optimizacion; every
access in the source uses a key of the dict. -/
def tipoDestino (DESTINOS : List (Nat × String)) (n : Nat) : String :=
  ((DESTINOS.find? (fun d => d.1 == n)).map Prod.snd).getD ""

/-- The compatible (ambulance id, incident node) pairs, app.py lines
212-216: ambulances outer, incidents (DESTINOS entries) inner, keeping
the pairs satisfying es_compatible. -/
def pares_amb_inc (ambulancias : List Ambulancia)
    (DESTINOS : List (Nat × String)) : List (String × Nat) :=
  ambulancias.flatMap (fun amb =>
    (DESTINOS.filter (fun d => es_compatible amb d.2)).map
      (fun d => (amb.id, d.1)))

/-- Compatible pairs of an instance. -/
def pares (I : Instancia) : List (String × Nat) :=
  pares_amb_inc I.ambulancias I.DESTINOS

/-- Early abort of resolver_optimizacion, app.py lines 218-219: when no
compatible pair exists the function returns the pair (None, message)
before the LpProblem is created and before any solver call; this is
modelled as an Except value, error meaning the (None, message) return. -/
def resolver_chequeo_pares (I : Instancia) :
    Except String (List (String × Nat)) :=
  if pares I = [] then
    Except.error "No compatible ambulance-incident pairs found"
  else Except.ok (pares I)

/-- A valuation of the decision variables of the MILP of app.py lines
224-240: y and x are the binary assignment and edge-use variables, T
the continuous response-time variables. -/
structure Solucion where
  y : String × Nat → Bool
  x : String × Nat → Arco → Bool
  T : String × Nat → ℚ

/-- Numeric value of a binary variable. -/
def bval (b : Bool) : ℚ := if b then 1 else 0

/-- Sum of a rational term over a list, the lpSum of the source. -/
def sumaQ (l : List α) (f : α → ℚ) : ℚ := (l.map f).sum

/-- Constraint 1, app.py lines 242-251: every incident is attended by
exactly one ambulance. -/
def restriccion_cobertura (I : Instancia) (S : Solucion) : Prop :=
  ∀ d ∈ I.DESTINOS,
    sumaQ ((pares I).filter (fun p => p.2 == d.1))
      (fun p => bval (S.y p)) = 1

/-- Constraint 2, app.py lines 253-262: every ambulance attends at most
one incident; the source only adds the constraint when the pair list of
the ambulance is nonempty. -/
def restriccion_exclusividad (I : Instancia) (S : Solucion) : Prop :=
  ∀ amb ∈ I.ambulancias,
    (pares I).filter (fun p => p.1 == amb.id) ≠ [] →
      sumaQ ((pares I).filter (fun p => p.1 == amb.id))
        (fun p => bval (S.y p)) ≤ 1

/-- Outgoing flow of a pair at a node, app.py lines 267-270. -/
def flujo_salida (I : Instancia) (S : Solucion) (p : String × Nat)
    (nodo : Nat) : ℚ :=
  sumaQ (I.arcos.filter (fun a => a.u == nodo)) (fun a => bval (S.x p a))

/-- Incoming flow of a pair at a node, app.py lines 271-274. -/
def flujo_entrada (I : Instancia) (S : Solucion) (p : String × Nat)
    (nodo : Nat) : ℚ :=
  sumaQ (I.arcos.filter (fun a => a.v == nodo)) (fun a => bval (S.x p a))

/-- Constraint 3, app.py lines 264-290: flow conservation at every node
for every compatible pair, with the origin case tested first exactly as
in the source. -/
def restriccion_flujo (I : Instancia) (S : Solucion) : Prop :=
  ∀ p ∈ pares I, ∀ nodo ∈ I.nodos,
    if nodo = I.ORIGEN then
      flujo_salida I S p nodo - flujo_entrada I S p nodo = bval (S.y p)
    else if nodo = p.2 then
      flujo_entrada I S p nodo - flujo_salida I S p nodo = bval (S.y p)
    else
      flujo_entrada I S p nodo - flujo_salida I S p nodo = 0

/-- Travel time of a pair along its selected edges, app.py lines
293-301. -/
def tiempo_total (I : Instancia) (S : Solucion) (p : String × Nat) : ℚ :=
  sumaQ I.arcos (fun a =>
    bval (S.x p a) *
      (a.distancia / I.R_k (tipoDestino I.DESTINOS p.2)) * 60)

/-- Constraint 4, app.py lines 292-306: T is at least the travel time
along the selected edges. -/
def restriccion_tiempo (I : Instancia) (S : Solucion) : Prop :=
  ∀ p ∈ pares I, S.T p ≥ tiempo_total I S p

/-- Constraint 5, app.py lines 308-324: on every edge the aggregated
required speeds of the pairs using it stay within the sampled capacity
scaled by the relaxation factor. -/
def restriccion_capacidad (I : Instancia) (S : Solucion)
    (factor : ℚ) : Prop :=
  ∀ a ∈ I.arcos,
    sumaQ (pares I)
        (fun p => bval (S.x p a) * I.R_k (tipoDestino I.DESTINOS p.2)) ≤
      a.capacidad * factor

/-- Big-M gating, app.py lines 326-331. -/
def restriccion_bigM (I : Instancia) (S : Solucion) : Prop :=
  ∀ p ∈ pares I, S.T p ≤ M * bval (S.y p)

/-- Lower bound 0 of the continuous variables T, app.py line 239. -/
def restriccion_T_nonneg (I : Instancia) (S : Solucion) : Prop :=
  ∀ p ∈ pares I, 0 ≤ S.T p

/-- Feasibility for the model built by resolver_optimizacion with the
given relaxation factor: all constraints of app.py lines 242-331 plus
the variable bounds. -/
def esFactible (I : Instancia) (factor : ℚ) (S : Solucion) : Prop :=
  restriccion_cobertura I S ∧ restriccion_exclusividad I S ∧
  restriccion_flujo I S ∧ restriccion_tiempo I S ∧
  restriccion_capacidad I S factor ∧ restriccion_bigM I S ∧
  restriccion_T_nonneg I S

/-- Operational cost of the ambulance with a given id via the
ambulancias_dict lookup of app.py line 209. -/
def costoAmbulancia (ambulancias : List Ambulancia) (aid : String) : ℚ :=
  ((ambulancias.find? (fun a => a.id == aid)).map
    (fun a => (costo_operativo a : ℚ))).getD 0

/-- Objective of app.py lines 333-351: priority- and cost-weighted
distance over selected edges plus priority-weighted response time. -/
def costo_objetivo (I : Instancia) (S : Solucion) : ℚ :=
  sumaQ (pares I) (fun p => sumaQ I.arcos (fun a =>
    (prioridades (tipoDestino I.DESTINOS p.2) : ℚ) * GAMMA *
      costoAmbulancia I.ambulancias p.1 * bval (S.x p a) * a.distancia)) +
  sumaQ (pares I) (fun p =>
    (prioridades (tipoDestino I.DESTINOS p.2) : ℚ) * BETA * S.T p)

/-- An optimal solution: feasible for the given factor and of minimal
objective among the feasible solutions, the contract of LpStatusOptimal
at app.py lines 354-357. -/
def esOptima (I : Instancia) (factor : ℚ) (S : Solucion) : Prop :=
  esFactible I factor S ∧
    ∀ S2, esFactible I factor S2 →
      costo_objetivo I S ≤ costo_objetivo I S2

/-- The (ambulance id, incident node) pairs of the asignaciones list
built at app.py lines 360-402: the compatible pairs whose assignment
variable is 1 in the returned solution. -/
def asignaciones (I : Instancia) (S : Solucion) : List (String × Nat) :=
  (pares I).filter (fun p => S.y p)

/-- Unfolding of sumaQ on a cons cell. -/
theorem sumaQ_cons (a : α) (l : List α) (f : α → ℚ) :
    sumaQ (a :: l) f = f a + sumaQ l f := by
  simp [sumaQ]

/-- A sum of indicator values of a binary variable over a list counts
the elements on which the variable is 1. -/
theorem sumaQ_bval_eq_length (l : List α) (g : α → Bool) :
    sumaQ l (fun a => bval (g a)) = ((l.filter g).length : ℚ) := by
  induction l with
  | nil => simp [sumaQ]
  | cons a t ih =>
    rw [sumaQ_cons, ih]
    by_cases h : g a <;> simp [List.filter_cons, h, bval]
    push_cast
    ring

/-- Claim C4: the operational cost is the fixed weighted sum
10 * personal + 5 * equipamiento + 3 * insumos and the derived class is
obtained by thresholding it at 200, 100 and 50, with the two worked
examples of the spec: resources (3, 5, 10) give cost 85 and class Leve,
resources (10, 15, 25) give cost 250 and class Crítica. -/
theorem C4_costo_y_tipo (idA : String) (p e i : Nat) :
    costo_operativo ⟨idA, p, e, i⟩ = 10 * p + 5 * e + 3 * i ∧
    (tipo ⟨idA, p, e, i⟩ = "Crítica" ↔
      200 ≤ costo_operativo ⟨idA, p, e, i⟩) ∧
    (tipo ⟨idA, p, e, i⟩ = "Media" ↔
      100 ≤ costo_operativo ⟨idA, p, e, i⟩ ∧
        costo_operativo ⟨idA, p, e, i⟩ < 200) ∧
    (tipo ⟨idA, p, e, i⟩ = "Leve" ↔
      50 ≤ costo_operativo ⟨idA, p, e, i⟩ ∧
        costo_operativo ⟨idA, p, e, i⟩ < 100) ∧
    (tipo ⟨idA, p, e, i⟩ = "Desconocido" ↔
      costo_operativo ⟨idA, p, e, i⟩ < 50) ∧
    costo_operativo ⟨idA, 3, 5, 10⟩ = 85 ∧
    tipo ⟨idA, 3, 5, 10⟩ = "Leve" ∧
    costo_operativo ⟨idA, 10, 15, 25⟩ = 250 ∧
    tipo ⟨idA, 10, 15, 25⟩ = "Crítica" := by
  have hc : costo_operativo ⟨idA, p, e, i⟩ =
      p * COEF_PERSONAL + e * COEF_EQUIPAMIENTO + i * COEF_INSUMOS := rfl
  refine ⟨?_, ?_, ?_, ?_, ?_, rfl, rfl, rfl, rfl⟩ <;>
    simp only [hc, tipo, costo_operativo,
      COEF_PERSONAL, COEF_EQUIPAMIENTO, COEF_INSUMOS]
  · ring
  all_goals split_ifs <;> simp_all <;> omega

/-- Claim C5: for the three recognized severities, es_compatible
returns true exactly when the class rank of the ambulance reaches the
severity rank, where the ranks are Leve 1, Media 2, Crítica 3, and the
Desconocido class has rank 0 and is compatible with none of the three
severities. -/
theorem C5_rango_compatibilidad (a : Ambulancia) (sev : String)
    (hsev : sev ∈ ["Leve", "Media", "Crítica"]) :
    nivel "Leve" = 1 ∧ nivel "Media" = 2 ∧ nivel "Crítica" = 3 ∧
    nivel "Desconocido" = 0 ∧
    (es_compatible a sev = true ↔ nivel sev ≤ nivel (tipo a)) ∧
    (tipo a = "Desconocido" → es_compatible a sev = false) := by
  refine ⟨rfl, rfl, rfl, rfl, by simp [es_compatible, ge_iff_le], ?_⟩
  intro h
  simp only [List.mem_cons, List.not_mem_nil, or_false] at hsev
  rcases hsev with rfl | rfl | rfl <;> simp [es_compatible, h, nivel]

/-- Witness for C5 at a concrete input: the default fleet ambulance
with resources (1, 2, 4) has cost 32, hence class Desconocido, and is
rejected for a Leve emergency. -/
theorem C5_rango_compatibilidad_witness :
    ("Leve" ∈ ["Leve", "Media", "Crítica"]) ∧
    es_compatible ⟨"Amb_015", 1, 2, 4⟩ "Leve" = false :=
  ⟨by decide,
    (C5_rango_compatibilidad ⟨"Amb_015", 1, 2, 4⟩ "Leve"
      (by decide)).2.2.2.2.2 rfl⟩

/-- Claim C9: an emergency type outside the three recognized severities
has rank 0 through the dict get default, so es_compatible accepts
every ambulance for it, whatever its class. -/
theorem C9_emergencia_desconocida_acepta_todo (a : Ambulancia)
    (emerg : String) (h : emerg ∉ ["Leve", "Media", "Crítica"]) :
    es_compatible a emerg = true := by
  simp only [List.mem_cons, List.not_mem_nil, or_false, not_or] at h
  obtain ⟨h1, h2, h3⟩ := h
  simp [es_compatible, nivel, h1, h2, h3]

/-- Witness for C9 at a concrete input: the emergency type Incendio is
unrecognized, and even the Desconocido-class ambulance with resources
(1, 2, 4) is accepted for it. -/
theorem C9_emergencia_desconocida_acepta_todo_witness :
    ("Incendio" ∉ ["Leve", "Media", "Crítica"]) ∧
    es_compatible ⟨"Amb_015", 1, 2, 4⟩ "Incendio" = true :=
  ⟨by decide,
    C9_emergencia_desconocida_acepta_todo ⟨"Amb_015", 1, 2, 4⟩ "Incendio"
      (by decide)⟩

/-- Claim C6: the stored travel time of an edge is
(distancia / capacidad) * 60 minutes, and in the degenerate range
C_MIN = C_MAX = 50 every sampled capacity equals 50, so a 10 km edge
gets exactly 12 minutes regardless of randomization. -/
theorem C6_tiempo_degenerado (c : ℚ) (h1 : 50 ≤ c) (h2 : c ≤ 50) :
    (∀ d : ℚ, tiempo_min d c = d / c * 60) ∧
    c = 50 ∧ tiempo_min 10 c = 12 := by
  have hc : c = 50 := le_antisymm h2 h1
  subst hc
  exact ⟨fun d => rfl, rfl, by norm_num [tiempo_min]⟩

/-- Witness for C6 at the concrete capacity 50. -/
theorem C6_tiempo_degenerado_witness :
    (50 : ℚ) ≤ 50 ∧ (50 : ℚ) ≤ 50 ∧ tiempo_min 10 50 = 12 :=
  ⟨le_refl 50, le_refl 50, (C6_tiempo_degenerado 50 (le_refl 50)
    (le_refl 50)).2.2⟩

/-- Counterexample to claim C7 as stated: random.uniform draws from
closed intervals, so with R_MIN = 20 and R_MAX = 50 the sample
(30, 30, 50) lies in the three prescribed thirds, yet the Leve and
Media speeds are equal, refuting the claimed strict ordering. -/
theorem C7_counterexample :
    (20 : ℚ) < 50 ∧
    muestraValida 20 50 ⟨30, 30, 50⟩ ∧
    ¬ (R_k_de ⟨30, 30, 50⟩ "Leve" < R_k_de ⟨30, 30, 50⟩ "Media" ∧
       R_k_de ⟨30, 30, 50⟩ "Media" < R_k_de ⟨30, 30, 50⟩ "Crítica") := by
  refine ⟨by norm_num, ?_, ?_⟩
  · unfold muestraValida tercio
    norm_num
  · unfold R_k_de
    norm_num

/-- Amended claim C7: each severity is sampled from its own closed
third of the range (Leve lowest, Media middle, Crítica highest), and
the sampled speeds satisfy the non-strict ordering
Leve ≤ Media ≤ Crítica. -/
theorem C7_orden_no_estricto (R_MIN R_MAX : ℚ) (s : MuestraVelocidades)
    (_hrange : R_MIN < R_MAX) (hs : muestraValida R_MIN R_MAX s) :
    R_k_de s "Leve" ≤ R_k_de s "Media" ∧
    R_k_de s "Media" ≤ R_k_de s "Crítica" := by
  obtain ⟨⟨_, hl2⟩, ⟨hm1, hm2⟩, ⟨hc1, _⟩⟩ := hs
  constructor
  · show s.leve ≤ s.media
    exact le_trans hl2 hm1
  · show s.media ≤ s.critica
    exact le_trans hm2 hc1

/-- Witness for the amended C7 at the concrete range [20, 50] and the
concrete sample (25, 35, 45). -/
theorem C7_orden_no_estricto_witness :
    (20 : ℚ) < 50 ∧ muestraValida 20 50 ⟨25, 35, 45⟩ ∧
    (R_k_de ⟨25, 35, 45⟩ "Leve" ≤ R_k_de ⟨25, 35, 45⟩ "Media" ∧
     R_k_de ⟨25, 35, 45⟩ "Media" ≤ R_k_de ⟨25, 35, 45⟩ "Crítica") :=
  ⟨by norm_num, by unfold muestraValida tercio; norm_num,
    C7_orden_no_estricto 20 50 ⟨25, 35, 45⟩ (by norm_num)
      (by unfold muestraValida tercio; norm_num)⟩

/-- Claim C2, evaluated on the code: on the selected edge set
[(2, 3, 0)] with origin 1 no edge leaves the current node, and the
reconstruction loop of app.py lines 383-390 makes no progress: after
any number of while iterations the loop is still running. The source
contains no ReconstructionError and no iteration bound, so the loop
diverges instead of raising the hard internal error the claim
requires. -/
theorem C2_reconstruccion_diverge (fuel : Nat) :
    reconstruirRuta fuel [1] 1 [(2, 3, 0)] = none := by
  induction fuel with
  | zero => rfl
  | succ f ih => exact ih

/-- Claim C3: when no (ambulance, incident) pair is compatible the
compatible-pair list is empty and resolver_optimizacion returns the
explicit error value (None, descriptive message) at app.py lines
218-219, before the LpProblem is constructed and before any solver
call. -/
theorem C3_sin_pares_error_explicito (I : Instancia)
    (h : ∀ amb ∈ I.ambulancias, ∀ d ∈ I.DESTINOS,
      es_compatible amb d.2 = false) :
    pares I = [] ∧
    resolver_chequeo_pares I =
      Except.error "No compatible ambulance-incident pairs found" := by
  have hp : pares I = [] := by
    unfold pares pares_amb_inc
    rw [List.flatMap_eq_nil_iff]
    intro amb hamb
    rw [List.map_eq_nil_iff, List.filter_eq_nil_iff]
    intro d hd
    simp [h amb hamb d hd]
  exact ⟨hp, by simp [resolver_chequeo_pares, hp]⟩

/-- Concrete instance with a single Desconocido-class ambulance and a
single Leve incident: no pair is compatible. -/
def instanciaIncompatible : Instancia where
  nodos := [1, 2]
  arcos := []
  ambulancias := [⟨"Amb_015", 1, 2, 4⟩]
  ORIGEN := 1
  DESTINOS := [(2, "Leve")]
  R_k := fun _ => 30

/-- Witness for C3 at the concrete incompatible instance. -/
theorem C3_sin_pares_error_explicito_witness :
    (∀ amb ∈ instanciaIncompatible.ambulancias,
      ∀ d ∈ instanciaIncompatible.DESTINOS,
        es_compatible amb d.2 = false) ∧
    (pares instanciaIncompatible = [] ∧
      resolver_chequeo_pares instanciaIncompatible =
        Except.error "No compatible ambulance-incident pairs found") :=
  ⟨by decide, C3_sin_pares_error_explicito instanciaIncompatible
    (by decide)⟩

/-- The truncated emergency type cycle of app.py line 182 has exactly
num elements: the cycle is repeated num / 3 + 1 times, which always
reaches at least num entries before truncation. -/
theorem length_tipos_emergencia_base (k : Nat) :
    (tipos_emergencia_base k).length = k := by
  have h : ((List.replicate (k / 3 + 1) FLUJOS).flatten).length =
      (k / 3 + 1) * 3 := by
    rw [List.length_flatten, List.map_replicate]
    simp [FLUJOS, List.sum_const_nat]
  unfold tipos_emergencia_base
  rw [List.length_take, h]
  omega

/-- Every entry of the truncated cycle is one of the three emergency
types. -/
theorem mem_tipos_emergencia_base {t : String} {k : Nat}
    (h : t ∈ tipos_emergencia_base k) : t ∈ FLUJOS := by
  unfold tipos_emergencia_base at h
  have h2 := List.mem_of_mem_take h
  rw [List.mem_flatten] at h2
  obtain ⟨l, hl, ht⟩ := h2
  rw [List.mem_replicate] at hl
  exact hl.2 ▸ ht

/-- Claim C10: generar_origen_destinos lowers the incident count to the
number of candidate nodes when fewer are available (the effective count
is the minimum of the two), and the DESTINOS mapping it returns has
exactly that many pairwise-distinct keys, none equal to the origin,
each associated to exactly one emergency type drawn from FLUJOS. The
random.sample call is modelled by its contract esSample and
random.shuffle by an arbitrary permutation of the truncated cycle. -/
theorem C10_destinos_generados (alcanzables : List Nat) (ORIGEN : Nat)
    (grado : Nat → Nat) (num : Nat) (sample : List Nat)
    (tipos : List String)
    (hs : esSample (candidatosDe alcanzables ORIGEN grado)
      (num_incidentes_efectivo num (candidatosDe alcanzables ORIGEN grado))
      sample)
    (ht : tipos.Perm (tipos_emergencia_base
      (num_incidentes_efectivo num
        (candidatosDe alcanzables ORIGEN grado)))) :
    num_incidentes_efectivo num (candidatosDe alcanzables ORIGEN grado) =
      min num (candidatosDe alcanzables ORIGEN grado).length ∧
    (generar_destinos sample tipos).length =
      num_incidentes_efectivo num (candidatosDe alcanzables ORIGEN grado) ∧
    (generar_destinos sample tipos).map Prod.fst = sample ∧
    ((generar_destinos sample tipos).map Prod.fst).Nodup ∧
    (∀ d ∈ generar_destinos sample tipos, d.1 ≠ ORIGEN) ∧
    (∀ d ∈ generar_destinos sample tipos, d.2 ∈ FLUJOS) := by
  obtain ⟨hnd, hlen, hsub⟩ := hs
  have htl : tipos.length =
      num_incidentes_efectivo num (candidatosDe alcanzables ORIGEN grado) := by
    rw [ht.length_eq, length_tipos_emergencia_base]
  have hkeys : (generar_destinos sample tipos).map Prod.fst = sample :=
    List.map_fst_zip sample tipos (by rw [htl, hlen])
  refine ⟨?_, ?_, hkeys, ?_, ?_, ?_⟩
  · unfold num_incidentes_efectivo
    split <;> omega
  · unfold generar_destinos
    rw [List.length_zip, hlen, htl, Nat.min_self]
  · rw [hkeys]; exact hnd
  · rintro ⟨n, t⟩ hd
    have hn := (List.of_mem_zip hd).1
    have hc := hsub n hn
    unfold candidatosDe at hc
    rw [List.mem_filter, decide_eq_true_eq] at hc
    exact hc.2.1
  · rintro ⟨n, t⟩ hd
    exact mem_tipos_emergencia_base (ht.mem_iff.mp (List.of_mem_zip hd).2)

/-- Witness for C10: four reachable nodes around origin 1, all of
positive degree, a request for 10 incidents that is lowered to the 3
candidates, the sample (3, 2, 4) and a genuine shuffle of the truncated
type cycle. -/
theorem C10_destinos_generados_witness :
    esSample (candidatosDe [1, 2, 3, 4] 1 (fun _ => 1))
      (num_incidentes_efectivo 10 (candidatosDe [1, 2, 3, 4] 1 (fun _ => 1)))
      [3, 2, 4] ∧
    List.Perm ["Leve", "Crítica", "Media"]
      (tipos_emergencia_base
        (num_incidentes_efectivo 10
          (candidatosDe [1, 2, 3, 4] 1 (fun _ => 1)))) ∧
    (num_incidentes_efectivo 10 (candidatosDe [1, 2, 3, 4] 1 (fun _ => 1)) =
      min 10 (candidatosDe [1, 2, 3, 4] 1 (fun _ => 1)).length ∧
    (generar_destinos [3, 2, 4] ["Leve", "Crítica", "Media"]).length =
      num_incidentes_efectivo 10 (candidatosDe [1, 2, 3, 4] 1 (fun _ => 1)) ∧
    (generar_destinos [3, 2, 4] ["Leve", "Crítica", "Media"]).map Prod.fst =
      [3, 2, 4] ∧
    ((generar_destinos [3, 2, 4] ["Leve", "Crítica", "Media"]).map
      Prod.fst).Nodup ∧
    (∀ d ∈ generar_destinos [3, 2, 4] ["Leve", "Crítica", "Media"],
      d.1 ≠ 1) ∧
    (∀ d ∈ generar_destinos [3, 2, 4] ["Leve", "Crítica", "Media"],
      d.2 ∈ FLUJOS)) :=
  ⟨by unfold esSample; decide, by decide,
    C10_destinos_generados [1, 2, 3, 4] 1 (fun _ => 1) 10 [3, 2, 4]
      ["Leve", "Crítica", "Media"] (by unfold esSample; decide) (by decide)⟩

/-- Relaxing the capacity factor from 1 to 2 preserves feasibility:
the factor appears only in the capacity constraint, and a nonnegative
capacity bound scaled by 2 is no smaller than the bound scaled by 1. -/
theorem factible_relajacion_monotona (I : Instancia) (S : Solucion)
    (hcap : ∀ a ∈ I.arcos, 0 ≤ a.capacidad)
    (h : esFactible I 1 S) : esFactible I 2 S := by
  obtain ⟨h1, h2, h3, h4, h5, h6, h7⟩ := h
  refine ⟨h1, h2, h3, h4, ?_, h6, h7⟩
  intro a ha
  have hle := h5 a ha
  have hc := hcap a ha
  linarith

/-- Claim C8: on a shared instance with nonnegative edge capacities,
an optimal solution at relaxation factor 2 costs no more than an
optimal solution at factor 1, because every solution feasible at
factor 1 stays feasible at factor 2. -/
theorem C8_relajacion_no_empeora (I : Instancia) (S1 S2 : Solucion)
    (hcap : ∀ a ∈ I.arcos, 0 ≤ a.capacidad)
    (h1 : esOptima I 1 S1) (h2 : esOptima I 2 S2) :
    costo_objetivo I S2 ≤ costo_objetivo I S1 :=
  h2.2 S1 (factible_relajacion_monotona I S1 hcap h1.1)

/-- A minimal instance of the model: no nodes, edges, ambulances or
incidents. -/
def instanciaVacia : Instancia where
  nodos := []
  arcos := []
  ambulancias := []
  ORIGEN := 1
  DESTINOS := []
  R_k := fun _ => 0

/-- The all-zero variable valuation. -/
def solucionCero : Solucion where
  y := fun _ => false
  x := fun _ _ => false
  T := fun _ => 0

/-- Every valuation is feasible on the empty instance: all constraints
quantify over empty lists. -/
theorem factible_vacia (f : ℚ) (S : Solucion) :
    esFactible instanciaVacia f S := by
  refine ⟨?_, ?_, ?_, ?_, ?_, ?_, ?_⟩ <;> intro z hz <;>
    simp [instanciaVacia, pares, pares_amb_inc] at hz

/-- The zero valuation is optimal on the empty instance at every
factor: the objective of any valuation there is the empty sum 0. -/
theorem optima_vacia (f : ℚ) : esOptima instanciaVacia f solucionCero := by
  refine ⟨factible_vacia f solucionCero, ?_⟩
  intro S2 _
  have h1 : costo_objetivo instanciaVacia solucionCero = 0 := by
    simp [costo_objetivo, sumaQ, pares, pares_amb_inc, instanciaVacia]
  have h2 : costo_objetivo instanciaVacia S2 = 0 := by
    simp [costo_objetivo, sumaQ, pares, pares_amb_inc, instanciaVacia]
  rw [h1, h2]

/-- Witness for C8 at the concrete empty instance, where the zero
valuation is optimal at both factors. -/
theorem C8_relajacion_no_empeora_witness :
    (∀ a ∈ instanciaVacia.arcos, 0 ≤ a.capacidad) ∧
    esOptima instanciaVacia 1 solucionCero ∧
    esOptima instanciaVacia 2 solucionCero ∧
    costo_objetivo instanciaVacia solucionCero ≤
      costo_objetivo instanciaVacia solucionCero :=
  ⟨by simp [instanciaVacia], optima_vacia 1, optima_vacia 2,
    C8_relajacion_no_empeora instanciaVacia solucionCero solucionCero
      (by simp [instanciaVacia]) (optima_vacia 1) (optima_vacia 2)⟩

/-- An indicator sum over a list not containing the key is zero. -/
theorem suma_indicador_cero {β : Type} [DecidableEq β] (L : List β) (c : β)
    (h : c ∉ L) :
    (L.map (fun b => if c = b then 1 else 0)).sum = 0 := by
  induction L with
  | nil => rfl
  | cons b L ih =>
    rw [List.mem_cons, not_or] at h
    simp [h.1, ih h.2]

/-- An indicator sum over a duplicate-free list containing the key is
one. -/
theorem suma_indicador_uno {β : Type} [DecidableEq β] (L : List β) (c : β)
    (hnd : L.Nodup) (h : c ∈ L) :
    (L.map (fun b => if c = b then 1 else 0)).sum = 1 := by
  induction L with
  | nil => simp at h
  | cons b L ih =>
    obtain ⟨hb, hnd2⟩ := List.nodup_cons.mp hnd
    rcases List.mem_cons.mp h with rfl | hcL
    · simp [suma_indicador_cero L c hb]
    · have hne : c ≠ b := fun hh => hb (hh ▸ hcL)
      simp [hne, ih hnd2 hcL]

/-- Partition of a list length by a duplicate-free key list covering
the image of f: the length is the sum over the keys of the sizes of the
fibers. -/
theorem length_eq_suma_filtros {α β : Type} [DecidableEq β] [BEq β]
    [LawfulBEq β] (L : List β) (f : α → β) (hnd : L.Nodup) :
    ∀ M : List α, (∀ a ∈ M, f a ∈ L) →
      M.length =
        (L.map (fun b => (M.filter (fun a => f a == b)).length)).sum := by
  intro M
  induction M with
  | nil => intro _; simp
  | cons a t ih =>
    intro hmem
    have h1 : f a ∈ L := hmem a (List.mem_cons_self a t)
    have ht := ih (fun x hx => hmem x (List.mem_cons_of_mem a hx))
    have hsplit : ∀ b, ((a :: t).filter (fun x => f x == b)).length =
        (t.filter (fun x => f x == b)).length +
          (if f a = b then 1 else 0) := by
      intro b
      by_cases hab : f a = b
      · simp [List.filter_cons, hab]
      · simp [List.filter_cons, hab]
    have hmap : L.map (fun b => ((a :: t).filter (fun x => f x == b)).length)
        = L.map (fun b => (t.filter (fun x => f x == b)).length +
            (if f a = b then 1 else 0)) :=
      List.map_congr_left (fun b _ => hsplit b)
    rw [List.length_cons, ht, hmap, List.sum_map_add,
      suma_indicador_uno L (f a) hnd h1]

/-- Swapping two successive filters preserves the length. -/
theorem length_filter_filter_comm (l : List α) (p q : α → Bool) :
    ((l.filter p).filter q).length = ((l.filter q).filter p).length := by
  simp only [List.filter_filter]
  exact congrArg List.length
    (List.filter_congr (fun a _ => by rw [Bool.and_comm]))

/-- Membership in the compatible pair list, unfolded. -/
theorem mem_pares_iff {I : Instancia} {p : String × Nat} :
    p ∈ pares I ↔ ∃ amb ∈ I.ambulancias, ∃ d ∈ I.DESTINOS,
      es_compatible amb d.2 = true ∧ p = (amb.id, d.1) := by
  unfold pares pares_amb_inc
  simp only [List.mem_flatMap, List.mem_map, List.mem_filter]
  constructor
  · rintro ⟨amb, hamb, d, ⟨hd, hc⟩, rfl⟩
    exact ⟨amb, hamb, d, hd, hc, rfl⟩
  · rintro ⟨amb, hamb, d, hd, hc, rfl⟩
    exact ⟨amb, hamb, d, ⟨hd, hc⟩, rfl⟩

/-- The ambulance id of a compatible pair is the id of a fleet
ambulance. -/
theorem fst_mem_of_mem_pares {I : Instancia} {p : String × Nat}
    (h : p ∈ pares I) : ∃ amb ∈ I.ambulancias, p.1 = amb.id := by
  obtain ⟨amb, hamb, d, _, _, rfl⟩ := mem_pares_iff.mp h
  exact ⟨amb, hamb, rfl⟩

/-- The incident node of a compatible pair is a key of DESTINOS. -/
theorem snd_mem_of_mem_pares {I : Instancia} {p : String × Nat}
    (h : p ∈ pares I) : p.2 ∈ I.DESTINOS.map Prod.fst := by
  obtain ⟨amb, _, d, hd, _, rfl⟩ := mem_pares_iff.mp h
  exact List.mem_map.mpr ⟨d, hd, rfl⟩

/-- Claim C1: for any solver output satisfying the model constraints
(the situation in which resolver_optimizacion returns a result), the
extracted assignment list has exactly one entry per incident node of
DESTINOS, its length equals the number of incidents, and no ambulance
id occurs in two entries. -/
theorem C1_asignaciones_consistentes (I : Instancia) (factor : ℚ)
    (S : Solucion) (hkeys : (I.DESTINOS.map Prod.fst).Nodup)
    (hfeas : esFactible I factor S) :
    (asignaciones I S).length = I.DESTINOS.length ∧
    (∀ d ∈ I.DESTINOS,
      ((asignaciones I S).filter (fun p => p.2 == d.1)).length = 1) ∧
    (∀ aid : String,
      ((asignaciones I S).filter (fun p => p.1 == aid)).length ≤ 1) := by
  obtain ⟨hcob, hexc, -, -, -, -, -⟩ := hfeas
  have hcov : ∀ d ∈ I.DESTINOS,
      ((asignaciones I S).filter (fun p => p.2 == d.1)).length = 1 := by
    intro d hd
    have h1 := hcob d hd
    rw [sumaQ_bval_eq_length] at h1
    have h2 : (((pares I).filter (fun p => p.2 == d.1)).filter
        (fun p => S.y p)).length = 1 := by exact_mod_cast h1
    calc ((asignaciones I S).filter (fun p => p.2 == d.1)).length
        = (((pares I).filter (fun p => p.2 == d.1)).filter
            (fun p => S.y p)).length := length_filter_filter_comm _ _ _
      _ = 1 := h2
  refine ⟨?_, hcov, ?_⟩
  · have hsub : ∀ p ∈ asignaciones I S, p.2 ∈ I.DESTINOS.map Prod.fst :=
      fun p hp => snd_mem_of_mem_pares (List.mem_of_mem_filter hp)
    have hlen := length_eq_suma_filtros (I.DESTINOS.map Prod.fst) Prod.snd
      hkeys (asignaciones I S) hsub
    rw [List.map_map] at hlen
    have hones : I.DESTINOS.map
        ((fun b => ((asignaciones I S).filter
          (fun a => a.2 == b)).length) ∘ Prod.fst) =
        I.DESTINOS.map (fun _ => 1) :=
      List.map_congr_left (fun d hd => hcov d hd)
    rw [hlen, hones]
    simp
  · intro aid
    by_cases hex : ∃ amb ∈ I.ambulancias, amb.id = aid
    · obtain ⟨amb, hamb, rfl⟩ := hex
      by_cases hne : (pares I).filter (fun p => p.1 == amb.id) = []
      · rw [show ((asignaciones I S).filter
            (fun p => p.1 == amb.id)).length =
            (((pares I).filter (fun p => p.1 == amb.id)).filter
              (fun p => S.y p)).length from
            length_filter_filter_comm _ _ _, hne]
        simp
      · have h1 := hexc amb hamb hne
        rw [sumaQ_bval_eq_length] at h1
        have h2 : (((pares I).filter (fun p => p.1 == amb.id)).filter
            (fun p => S.y p)).length ≤ 1 := by exact_mod_cast h1
        calc ((asignaciones I S).filter (fun p => p.1 == amb.id)).length
            = (((pares I).filter (fun p => p.1 == amb.id)).filter
                (fun p => S.y p)).length := length_filter_filter_comm _ _ _
          _ ≤ 1 := h2
    · have h0 : (asignaciones I S).filter (fun p => p.1 == aid) = [] := by
        rw [List.filter_eq_nil_iff]
        intro p hp
        obtain ⟨amb, hamb, he⟩ :=
          fst_mem_of_mem_pares (List.mem_of_mem_filter hp)
        simp only [beq_iff_eq]
        intro heq
        exact hex ⟨amb, hamb, by rw [← he, heq]⟩
      rw [h0]
      simp

/-- A concrete instance: one Leve ambulance, one Leve incident at node
2, one edge from the origin 1 to node 2. -/
def instanciaUnitaria : Instancia where
  nodos := [1, 2]
  arcos := [⟨1, 2, 0, 1, 50⟩]
  ambulancias := [⟨"Amb_001", 3, 5, 10⟩]
  ORIGEN := 1
  DESTINOS := [(2, "Leve")]
  R_k := fun _ => 30

/-- The valuation dispatching the single ambulance over the single
edge. -/
def solucionUnitaria : Solucion where
  y := fun _ => true
  x := fun _ _ => true
  T := fun _ => 2

/-- The unit instance has exactly one compatible pair. -/
theorem pares_unitaria : pares instanciaUnitaria = [("Amb_001", 2)] := rfl

/-- The unit valuation satisfies every constraint of the model at
factor 1. -/
theorem factible_unitaria : esFactible instanciaUnitaria 1 solucionUnitaria := by
  refine ⟨?_, ?_, ?_, ?_, ?_, ?_, ?_⟩
  · intro d hd
    simp only [instanciaUnitaria, List.mem_singleton] at hd
    subst hd
    rw [pares_unitaria]
    norm_num [sumaQ, bval, solucionUnitaria]
  · intro amb hamb h
    simp only [instanciaUnitaria, List.mem_singleton] at hamb
    subst hamb
    rw [pares_unitaria]
    norm_num [sumaQ, bval, solucionUnitaria]
  · intro p hp nodo hnodo
    rw [pares_unitaria] at hp
    simp only [List.mem_singleton] at hp
    subst hp
    simp only [instanciaUnitaria, List.mem_cons, List.not_mem_nil,
      or_false] at hnodo
    rcases hnodo with rfl | rfl <;>
      norm_num [instanciaUnitaria, flujo_salida, flujo_entrada, sumaQ,
        bval, solucionUnitaria]
  · intro p hp
    rw [pares_unitaria] at hp
    simp only [List.mem_singleton] at hp
    subst hp
    norm_num [instanciaUnitaria, tiempo_total, sumaQ, bval,
      solucionUnitaria, tipoDestino]
  · intro a ha
    simp only [instanciaUnitaria, List.mem_singleton] at ha
    subst ha
    rw [pares_unitaria]
    norm_num [sumaQ, bval, solucionUnitaria, tipoDestino, instanciaUnitaria]
  · intro p hp
    rw [pares_unitaria] at hp
    simp only [List.mem_singleton] at hp
    subst hp
    norm_num [M, bval, solucionUnitaria]
  · intro p hp
    norm_num [solucionUnitaria]

/-- Witness for C1 at the concrete unit instance and unit valuation. -/
theorem C1_asignaciones_consistentes_witness :
    (instanciaUnitaria.DESTINOS.map Prod.fst).Nodup ∧
    esFactible instanciaUnitaria 1 solucionUnitaria ∧
    ((asignaciones instanciaUnitaria solucionUnitaria).length =
      instanciaUnitaria.DESTINOS.length ∧
    (∀ d ∈ instanciaUnitaria.DESTINOS,
      ((asignaciones instanciaUnitaria solucionUnitaria).filter
        (fun p => p.2 == d.1)).length = 1) ∧
    (∀ aid : String,
      ((asignaciones instanciaUnitaria solucionUnitaria).filter
        (fun p => p.1 == aid)).length ≤ 1)) :=
  ⟨by decide, factible_unitaria,
    C1_asignaciones_consistentes instanciaUnitaria 1 solucionUnitaria
      (by decide) factible_unitaria⟩

end Ambulancias
